import Mathlib

/-! Car-park gate controller: the control loop of `main` in `Src/micro_controller/main.c`.

The body of the `while (1)` loop is embedded as a pure function `step` from the
loop-carried variables and the values the hardware returns in one cycle
(sensor pin, millisecond tick, UART receive status and bytes, UART transmit
statuses) to the new loop-carried variables and the ordered list of calls made
to the peripherals (display, UART transmit, delay, servo compare register).
-/

namespace CarPark

/-- The `SystemState` enum of main.c (lines 16-21). -/
inductive SystemState where
  | NO_CAR
  | WAITING_RESPONSE
  | OPEN_GATE
  | CLOSE_GATE
  deriving DecidableEq, Repr

/-- Return codes of the STM32 HAL calls (`HAL_StatusTypeDef`, declared in the
HAL headers): the code only ever compares them with `HAL_OK`. -/
inductive HAL_StatusTypeDef where
  | HAL_OK
  | HAL_ERROR
  | HAL_BUSY
  | HAL_TIMEOUT
  deriving DecidableEq, Repr

open SystemState HAL_StatusTypeDef

/-- The servo compare value of the closed gate: `#define SERVO_CLOSED 250`. -/
def SERVO_CLOSED : Nat := 250

/-- The servo compare value of the open gate: `#define SERVO_OPEN 750`. -/
def SERVO_OPEN : Nat := 750

/-- The size of the receive buffer: `#define UART_BUFFER_SIZE 20`. -/
def UART_BUFFER_SIZE : Nat := 20

/-- The request sent to the verifier: `char *carDetectMsg = "CAR_DETECTED\n"` (line 75). -/
def carDetectMsg : String := "CAR_DETECTED\n"

/-- The calls one loop iteration makes to the peripherals, in program order. -/
inductive Effect where
  /-- The call `ssd1306_Fill(White)`. -/
  | Fill
  /-- The call `ssd1306_SetCursor(x, y)`. -/
  | SetCursor (x y : Nat)
  /-- The call `ssd1306_WriteString(lit, Font_6x8, Black)` on a string literal. -/
  | WriteString (s : String)
  /-- The call `ssd1306_WriteString(uartRxBuffer, Font_6x8, Black)`: the bytes of the
  receive buffer up to its first NUL. -/
  | WriteBuffer (bytes : List Nat)
  /-- The call `ssd1306_UpdateScreen()`. -/
  | UpdateScreen
  /-- The call `HAL_UART_Transmit(&huart1, msg, size, timeout)`. -/
  | Transmit (msg : String) (size : Nat) (timeout : Nat)
  /-- The call `HAL_Delay(ms)`. -/
  | Delay (ms : Nat)
  /-- The write `__HAL_TIM_SET_COMPARE(&htim2, TIM_CHANNEL_1, v)`. -/
  | SetCompare (v : Nat)
  deriving DecidableEq, Repr

open Effect

/-- The variables that live across iterations of the loop (lines 51-54), and the
compare register of TIM2 channel 1 that drives the servo. -/
structure LoopState where
  /-- The variable `SystemState state`. -/
  state : SystemState
  /-- The variable `uint8_t carDetectedPrevious`; it only ever holds 0 or 1. -/
  carDetectedPrevious : Bool
  /-- The variable `uint32_t lastCarDetectionTime`. -/
  lastCarDetectionTime : Nat
  /-- The compare register last written by `__HAL_TIM_SET_COMPARE`. -/
  compare : Nat
  deriving DecidableEq, Repr

/-- What the hardware returns during one iteration of the loop. -/
structure CycleInput where
  /-- Whether `HAL_GPIO_ReadPin(GPIOA, GPIO_PIN_1)` returned `GPIO_PIN_SET`. -/
  carSensor : Bool
  /-- The value returned by `HAL_GetTick()`, a `uint32_t`. -/
  tick : Nat
  /-- The status returned by `HAL_UART_Receive(&huart1, uartRxBuffer, 2, 100)`. -/
  rxStatus : HAL_StatusTypeDef
  /-- The byte `uartRxBuffer[0]` after the receive call (0 when none was stored). -/
  rx0 : Nat
  /-- The byte `uartRxBuffer[1]` after the receive call (0 when none was stored). -/
  rx1 : Nat
  /-- The status returned by the call of `HAL_UART_Transmit` made with loop counter `retry`. -/
  tx : Nat → HAL_StatusTypeDef

/-- The values of the variables before the first iteration (lines 38, 51-54). -/
def initialState : LoopState :=
  { state := NO_CAR, carDetectedPrevious := false, lastCarDetectionTime := 0,
    compare := SERVO_CLOSED }

/-- Subtraction of two `uint32_t` values, as C computes `a - b`. -/
def sub32 (a b : Nat) : Nat := (a + (4294967296 - b % 4294967296)) % 4294967296

/-- The receive buffer after `memset(uartRxBuffer, 0, UART_BUFFER_SIZE)` and a receive
of at most two bytes. -/
def uartRxBuffer (rx0 rx1 : Nat) : List Nat :=
  [rx0, rx1] ++ List.replicate (UART_BUFFER_SIZE - 2) 0

/-- The C string stored in a buffer: its bytes before the first NUL. -/
def cString (buf : List Nat) : List Nat := buf.takeWhile (fun b => b != 0)

/-- The loop `for (retry = 0; retry < 5; retry++)` of lines 76-80. The first argument
counts the iterations left (`5 - retry`); the loop is entered as `retryLoop tx 5 0`. -/
def retryLoop (tx : Nat → HAL_StatusTypeDef) : Nat → Nat → List Effect
  | 0, _ => []
  | n + 1, retry =>
    Transmit carDetectMsg carDetectMsg.length 100 ::
      (if tx retry = HAL_OK then [] else Delay 20 :: retryLoop tx n (retry + 1))

/-- The branch `case NO_CAR` (lines 66-85). -/
def caseNoCar (s : LoopState) (i : CycleInput) : LoopState × List Effect :=
  if i.carSensor && !s.carDetectedPrevious then
    ({ s with state := WAITING_RESPONSE, lastCarDetectionTime := i.tick },
      [Fill, SetCursor 0 0, WriteString "Car Detected", SetCursor 0 20,
        WriteString "Checking...", UpdateScreen] ++ retryLoop i.tx 5 0)
  else (s, [])

/-- The first statement of `case WAITING_RESPONSE`: `if (rxStatus == HAL_OK) ...`
(lines 88-113). -/
def handleResponse (s : LoopState) (i : CycleInput) : LoopState × List Effect :=
  if i.rxStatus = HAL_OK then
    let echo := [SetCursor 0 40, WriteBuffer (cString (uartRxBuffer i.rx0 i.rx1)), UpdateScreen]
    if i.rx0 = 'O'.toNat ∧ i.rx1 = 'K'.toNat then
      ({ s with state := OPEN_GATE, compare := SERVO_OPEN },
        echo ++ [Fill, SetCursor 10 10, WriteString "Access", SetCursor 10 30,
          WriteString "Granted", UpdateScreen, SetCompare SERVO_OPEN])
    else if i.rx0 = 'N'.toNat ∧ i.rx1 = 'O'.toNat then
      ({ s with state := NO_CAR },
        echo ++ [Fill, SetCursor 10 10, WriteString "Access", SetCursor 10 30,
          WriteString "Denied", UpdateScreen])
    else (s, echo)
  else (s, [])

/-- The second statement of `case WAITING_RESPONSE`:
`if (currentTime - lastCarDetectionTime > 5000) ...` (lines 115-121). -/
def handleTimeout (s : LoopState) (i : CycleInput) : LoopState × List Effect :=
  if sub32 i.tick s.lastCarDetectionTime > 5000 then
    ({ s with state := NO_CAR },
      [Fill, SetCursor 0 10, WriteString "Timeout", UpdateScreen])
  else (s, [])

/-- The branch `case WAITING_RESPONSE` (lines 87-122): the two statements in sequence. -/
def caseWaitingResponse (s : LoopState) (i : CycleInput) : LoopState × List Effect :=
  let r := handleResponse s i
  let t := handleTimeout r.1 i
  (t.1, r.2 ++ t.2)

/-- The branch `case OPEN_GATE` (lines 124-136). -/
def caseOpenGate (s : LoopState) (i : CycleInput) : LoopState × List Effect :=
  if !i.carSensor && s.carDetectedPrevious then
    ({ s with state := CLOSE_GATE, compare := SERVO_CLOSED },
      [Fill, SetCursor 10 20, WriteString "Closing", UpdateScreen, Delay 1000,
        SetCompare SERVO_CLOSED])
  else (s, [])

/-- The branch `case CLOSE_GATE` (lines 138-144). -/
def caseCloseGate (s : LoopState) : LoopState × List Effect :=
  ({ s with state := NO_CAR },
    [Fill, SetCursor 10 20, WriteString "Ready", UpdateScreen])

/-- One iteration of the `while (1)` loop (lines 58-148): the `switch (state)`, then
`carDetectedPrevious = carDetected; HAL_Delay(100);`. -/
def step (s : LoopState) (i : CycleInput) : LoopState × List Effect :=
  let r :=
    match s.state with
    | NO_CAR => caseNoCar s i
    | WAITING_RESPONSE => caseWaitingResponse s i
    | OPEN_GATE => caseOpenGate s i
    | CLOSE_GATE => caseCloseGate s
  ({ r.1 with carDetectedPrevious := i.carSensor }, r.2 ++ [Delay 100])

/-- The loop run over the inputs of successive iterations: the state after each
iteration, paired with the calls made in it. -/
def run (s : LoopState) : List CycleInput → List (LoopState × List Effect)
  | [] => []
  | i :: rest => step s i :: run (step s i).1 rest

/-- The values of `state` after each iteration of a run. -/
def statesOf (r : List (LoopState × List Effect)) : List SystemState :=
  r.map (fun p => p.1.state)

/-- All peripheral calls of a run, in order. -/
def effectsOf (r : List (LoopState × List Effect)) : List Effect :=
  r.foldr (fun p acc => p.2 ++ acc) []

/-- The values written to the servo compare register, in order. -/
def servoCommands : List Effect → List Nat
  | [] => []
  | SetCompare v :: rest => v :: servoCommands rest
  | _ :: rest => servoCommands rest

/-- The number of calls of `ssd1306_UpdateScreen`. -/
def displayUpdates (es : List Effect) : Nat := es.count UpdateScreen

/-- The transmit calls among a list of effects, as (message, size) pairs. -/
def transmits : List Effect → List (String × Nat)
  | [] => []
  | Transmit m n _ :: rest => (m, n) :: transmits rest
  | _ :: rest => transmits rest

/-! ## Single-step facts shared by the results below -/

theorem servoCommands_append (a b : List Effect) :
    servoCommands (a ++ b) = servoCommands a ++ servoCommands b := by
  induction a with
  | nil => rfl
  | cons e rest ih => cases e <;> simp [servoCommands, ih]

theorem transmits_append (a b : List Effect) :
    transmits (a ++ b) = transmits a ++ transmits b := by
  induction a with
  | nil => rfl
  | cons e rest ih => cases e <;> simp [transmits, ih]

theorem servoCommands_retryLoop (tx : Nat → HAL_StatusTypeDef) (n retry : Nat) :
    servoCommands (retryLoop tx n retry) = [] := by
  induction n generalizing retry with
  | zero => rfl
  | succ n ih =>
    by_cases h : tx retry = HAL_OK <;> simp [retryLoop, servoCommands, h, ih]

theorem setCompare_not_mem_retryLoop (tx : Nat → HAL_StatusTypeDef) (n retry v : Nat) :
    SetCompare v ∉ retryLoop tx n retry := by
  induction n generalizing retry with
  | zero => simp [retryLoop]
  | succ n ih =>
    by_cases h : tx retry = HAL_OK <;> simp [retryLoop, h, ih]

theorem displayUpdates_retryLoop (tx : Nat → HAL_StatusTypeDef) (n retry : Nat) :
    displayUpdates (retryLoop tx n retry) = 0 := by
  induction n generalizing retry with
  | zero => rfl
  | succ n ih =>
    have ih2 := ih (retry + 1)
    unfold displayUpdates at ih2 ⊢
    by_cases h : tx retry = HAL_OK <;> simp [retryLoop, h, ih2]

/-- A granted response that arrives before the deadline opens the gate. -/
theorem step_waiting_ok_in_time (s : LoopState) (i : CycleInput)
    (hs : s.state = WAITING_RESPONSE) (hrx : i.rxStatus = HAL_OK)
    (h0 : i.rx0 = 'O'.toNat) (h1 : i.rx1 = 'K'.toNat)
    (ht : sub32 i.tick s.lastCarDetectionTime ≤ 5000) :
    (step s i).1.state = OPEN_GATE ∧ (step s i).1.compare = SERVO_OPEN ∧
      servoCommands (step s i).2 = [SERVO_OPEN] := by
  have ht2 : ¬ sub32 i.tick s.lastCarDetectionTime > 5000 := by omega
  simp [step, hs, caseWaitingResponse, handleResponse, handleTimeout, hrx, h0, h1, ht2,
    servoCommands]

theorem timeout_not_mem_retryLoop (tx : Nat → HAL_StatusTypeDef) (n retry : Nat) :
    WriteString "Timeout" ∉ retryLoop tx n retry := by
  induction n generalizing retry with
  | zero => simp [retryLoop]
  | succ n ih =>
    by_cases h : tx retry = HAL_OK <;> simp [retryLoop, h, ih]

theorem retryLoop_failed_prefix (tx : Nat → HAL_StatusTypeDef) (k : Nat) :
    ∀ n retry, k ≤ n → (∀ j, j < k → tx (retry + j) ≠ HAL_OK) →
      retryLoop tx n retry =
        (List.replicate k [Transmit "CAR_DETECTED\n" 13 100, Delay 20]).flatten ++
          retryLoop tx (n - k) (retry + k) := by
  induction k with
  | zero => intro n retry _ _; simp
  | succ k ih =>
    intro n retry hk hfail
    obtain ⟨m, rfl⟩ : ∃ m, n = m + 1 := ⟨n - 1, by omega⟩
    have h0 : tx retry ≠ HAL_OK := by simpa using hfail 0 (by omega)
    have hrest : ∀ j, j < k → tx (retry + 1 + j) ≠ HAL_OK := by
      intro j hj
      have := hfail (j + 1) (by omega)
      rwa [show retry + (j + 1) = retry + 1 + j by omega] at this
    have hstep := ih m (retry + 1) (by omega) hrest
    have hlen : carDetectMsg.length = 13 := rfl
    simp only [retryLoop, h0, if_false, hstep, List.replicate_succ, List.flatten_cons,
      carDetectMsg, hlen]
    rw [show m + 1 - (k + 1) = m - k by omega, show retry + 1 + k = retry + (k + 1) by omega]
    rfl

theorem transmits_failed_attempts (k : Nat) :
    (transmits
      (List.replicate k [Transmit "CAR_DETECTED\n" 13 100, Delay 20]).flatten).length = k := by
  induction k with
  | zero => rfl
  | succ k ih => simp [List.replicate_succ, transmits, ih]

theorem backoffs_failed_attempts (k : Nat) :
    (List.replicate k [Transmit "CAR_DETECTED\n" 13 100, Delay 20]).flatten.count (Delay 20)
      = k := by
  induction k with
  | zero => rfl
  | succ k ih => simp [List.replicate_succ, ih]

theorem transmits_retryLoop_msg (tx : Nat → HAL_StatusTypeDef) (n retry : Nat) :
    ∀ e ∈ transmits (retryLoop tx n retry), e = ("CAR_DETECTED\n", 13) := by
  induction n generalizing retry with
  | zero => intro e he; simp [retryLoop, transmits] at he
  | succ n ih =>
    intro e he
    by_cases h : tx retry = HAL_OK
    · simp [retryLoop, transmits, h] at he
      rw [he]; rfl
    · simp only [retryLoop, transmits, h, if_false, List.mem_cons] at he
      rcases he with he | he
      · rw [he]; rfl
      · exact ih _ _ he

/-- Unsigned 32-bit subtraction agrees with subtraction modulo 2^32 on the integers. -/
theorem sub32_eq_emod (a b : Nat) :
    ((sub32 a b : Nat) : Int) = ((a : Int) - (b : Int)) % 4294967296 := by
  unfold sub32
  omega

/-- The "Timeout" message is written by a step from WAITING_RESPONSE exactly when the
unsigned difference exceeds 5000. -/
theorem timeout_written_iff (s : LoopState) (i : CycleInput)
    (hs : s.state = WAITING_RESPONSE) :
    WriteString "Timeout" ∈ (step s i).2 ↔ sub32 i.tick s.lastCarDetectionTime > 5000 := by
  simp only [step, hs, caseWaitingResponse, handleResponse, handleTimeout]
  split_ifs <;> simp_all

/-- A step from NO_CAR on a rising edge. -/
theorem step_noCar_rising (s : LoopState) (i : CycleInput)
    (hs : s.state = NO_CAR) (hp : s.carDetectedPrevious = false) (hc : i.carSensor = true) :
    step s i =
      (⟨WAITING_RESPONSE, true, i.tick, s.compare⟩,
        [Fill, SetCursor 0 0, WriteString "Car Detected", SetCursor 0 20,
          WriteString "Checking...", UpdateScreen] ++ (retryLoop i.tx 5 0 ++ [Delay 100])) := by
  simp [step, hs, caseNoCar, hp, hc]

/-- A step from NO_CAR without a rising edge. -/
theorem step_noCar_quiet (s : LoopState) (i : CycleInput)
    (hs : s.state = NO_CAR) (h : s.carDetectedPrevious = true ∨ i.carSensor = false) :
    step s i = (⟨NO_CAR, i.carSensor, s.lastCarDetectionTime, s.compare⟩, [Delay 100]) := by
  have h2 : ¬ ((i.carSensor && !s.carDetectedPrevious) = true) := by
    rcases h with h | h <;> simp [h]
  simp [step, hs, caseNoCar, h2]

/-- A step from OPEN_GATE without a falling edge. -/
theorem step_openGate_stay (s : LoopState) (i : CycleInput)
    (hs : s.state = OPEN_GATE) (h : s.carDetectedPrevious = false ∨ i.carSensor = true) :
    step s i = (⟨OPEN_GATE, i.carSensor, s.lastCarDetectionTime, s.compare⟩, [Delay 100]) := by
  have h2 : ¬ ((!i.carSensor && s.carDetectedPrevious) = true) := by
    rcases h with h | h <;> simp [h]
  simp [step, hs, caseOpenGate, h2]

/-- A step from OPEN_GATE on a falling edge. -/
theorem step_openGate_close (s : LoopState) (i : CycleInput)
    (hs : s.state = OPEN_GATE) (hp : s.carDetectedPrevious = true) (hc : i.carSensor = false) :
    step s i =
      (⟨CLOSE_GATE, false, s.lastCarDetectionTime, SERVO_CLOSED⟩,
        [Fill, SetCursor 10 20, WriteString "Closing", UpdateScreen, Delay 1000,
          SetCompare SERVO_CLOSED, Delay 100]) := by
  simp [step, hs, caseOpenGate, hp, hc]

/-- A step from CLOSE_GATE. -/
theorem step_closeGate (s : LoopState) (i : CycleInput) (hs : s.state = CLOSE_GATE) :
    step s i =
      (⟨NO_CAR, i.carSensor, s.lastCarDetectionTime, s.compare⟩,
        [Fill, SetCursor 10 20, WriteString "Ready", UpdateScreen, Delay 100]) := by
  simp [step, hs, caseCloseGate]

/-- A step from WAITING_RESPONSE in which the receive did not succeed. -/
theorem step_waiting_no_rx (s : LoopState) (i : CycleInput)
    (hs : s.state = WAITING_RESPONSE) (hrx : i.rxStatus ≠ HAL_OK) :
    step s i =
      if sub32 i.tick s.lastCarDetectionTime > 5000 then
        (⟨NO_CAR, i.carSensor, s.lastCarDetectionTime, s.compare⟩,
          [Fill, SetCursor 0 10, WriteString "Timeout", UpdateScreen, Delay 100])
      else (⟨WAITING_RESPONSE, i.carSensor, s.lastCarDetectionTime, s.compare⟩, [Delay 100]) := by
  simp only [step, hs, caseWaitingResponse, handleResponse, handleTimeout]
  split_ifs <;> simp_all

theorem effectsOf_cons (p : LoopState × List Effect) (r : List (LoopState × List Effect)) :
    effectsOf (p :: r) = p.2 ++ effectsOf r := rfl

theorem statesOf_cons (p : LoopState × List Effect) (r : List (LoopState × List Effect)) :
    statesOf (p :: r) = p.1.state :: statesOf r := rfl

/-- While the car stays on the sensor the gate stays open; when it leaves, the gate is
closed and the loop returns to NO_CAR on the following cycle. -/
theorem run_open_then_close (mid : List CycleInput) (i4 i5 : CycleInput) :
    ∀ s : LoopState, s.state = OPEN_GATE → s.carDetectedPrevious = true →
      (∀ m ∈ mid, m.carSensor = true) → i4.carSensor = false →
      statesOf (run s (mid ++ [i4, i5])) =
          List.replicate mid.length OPEN_GATE ++ [CLOSE_GATE, NO_CAR] ∧
        servoCommands (effectsOf (run s (mid ++ [i4, i5]))) = [SERVO_CLOSED] := by
  induction mid with
  | nil =>
    intro s hs hp _ h4
    have e4 := step_openGate_close s i4 hs hp h4
    have e5 := step_closeGate (step s i4).1 i5 (by rw [e4])
    simp only [List.nil_append, run, statesOf_cons, effectsOf_cons, servoCommands_append]
    rw [e5, e4]
    simp [statesOf, effectsOf, servoCommands]
  | cons m mid ih =>
    intro s hs hp hmid h4
    have hm : m.carSensor = true := hmid m (by simp)
    have em := step_openGate_stay s m hs (Or.inr hm)
    have hrec := ih (step s m).1 (by rw [em]) (by rw [em]; exact hm)
      (fun x hx => hmid x (by simp [hx])) h4
    have hrun : run s (m :: (mid ++ [i4, i5])) =
        step s m :: run (step s m).1 (mid ++ [i4, i5]) := rfl
    rw [List.cons_append, hrun, statesOf_cons, effectsOf_cons, servoCommands_append,
      hrec.1, hrec.2, em]
    simp [List.replicate_succ, servoCommands]

/-- Without a successful receive the loop never leaves NO_CAR and WAITING_RESPONSE and
never writes the servo. -/
theorem run_no_rx_invariant (inputs : List CycleInput) :
    ∀ s : LoopState, (s.state = NO_CAR ∨ s.state = WAITING_RESPONSE) →
      (∀ i ∈ inputs, i.rxStatus ≠ HAL_OK) →
      ∀ p ∈ run s inputs,
        (p.1.state = NO_CAR ∨ p.1.state = WAITING_RESPONSE) ∧ servoCommands p.2 = [] := by
  induction inputs with
  | nil => intro s _ _ p hp; simp [run] at hp
  | cons i rest ih =>
    intro s hs hrx p hp
    have hi : i.rxStatus ≠ HAL_OK := hrx i (by simp)
    have hstep : ((step s i).1.state = NO_CAR ∨ (step s i).1.state = WAITING_RESPONSE) ∧
        servoCommands (step s i).2 = [] := by
      rcases hs with hs | hs
      · by_cases h : s.carDetectedPrevious = true ∨ i.carSensor = false
        · rw [step_noCar_quiet s i hs h]
          simp [servoCommands]
        · have hp : s.carDetectedPrevious = false := by
            cases hq : s.carDetectedPrevious <;> simp_all
          have hc : i.carSensor = true := by
            cases hq : i.carSensor <;> simp_all
          rw [step_noCar_rising s i hs hp hc]
          have hpre : servoCommands [Fill, SetCursor 0 0, WriteString "Car Detected",
              SetCursor 0 20, WriteString "Checking...", UpdateScreen] = [] := rfl
          have hpost : servoCommands [Delay 100] = [] := rfl
          simp only [servoCommands_append, servoCommands_retryLoop, hpre, hpost]
          simp
      · rw [step_waiting_no_rx s i hs hi]
        split_ifs <;> simp [servoCommands]
    simp only [run, List.mem_cons] at hp
    rcases hp with rfl | hp
    · exact hstep
    · exact ih (step s i).1 hstep.1 (fun x hx => hrx x (by simp [hx])) p hp

/-- Once back in NO_CAR with the car still on the sensor, no new request is made. -/
theorem run_noCar_present (rest : List CycleInput) :
    ∀ s : LoopState, s.state = NO_CAR → s.carDetectedPrevious = true →
      (∀ i ∈ rest, i.carSensor = true) →
      statesOf (run s rest) = rest.map (fun _ => NO_CAR) := by
  induction rest with
  | nil => intro s _ _ _; rfl
  | cons i rest ih =>
    intro s hs hp hall
    have hi : i.carSensor = true := hall i (by simp)
    have e := step_noCar_quiet s i hs (Or.inl hp)
    have hrec := ih (step s i).1 (by rw [e]) (by rw [e]; exact hi)
      (fun x hx => hall x (by simp [hx]))
    simp only [run, statesOf_cons, hrec, List.map_cons]
    rw [e]

/-- While waiting without a successful receive, with non-decreasing ticks, the loop stays
in WAITING_RESPONSE up to the deadline and is in NO_CAR from the first tick past it. -/
theorem run_waiting_until_deadline (rest : List CycleInput) :
    ∀ s : LoopState, s.state = WAITING_RESPONSE → s.lastCarDetectionTime < 4294967296 →
      (∀ i ∈ rest, i.carSensor = true) → (∀ i ∈ rest, i.rxStatus ≠ HAL_OK) →
      (∀ i ∈ rest, s.lastCarDetectionTime ≤ i.tick ∧ i.tick < 4294967296) →
      List.Pairwise (fun a b : CycleInput => a.tick ≤ b.tick) rest →
      statesOf (run s rest) =
        rest.map (fun i =>
          if i.tick - s.lastCarDetectionTime > 5000 then NO_CAR else WAITING_RESPONSE) := by
  induction rest with
  | nil => intro s _ _ _ _ _ _; rfl
  | cons i rest ih =>
    intro s hs hlast hall hrx hrange hsorted
    have hi : i.carSensor = true := hall i (by simp)
    have hirx : i.rxStatus ≠ HAL_OK := hrx i (by simp)
    have hir := hrange i (by simp)
    have hsub : sub32 i.tick s.lastCarDetectionTime = i.tick - s.lastCarDetectionTime := by
      unfold sub32; omega
    have e := step_waiting_no_rx s i hs hirx
    rw [hsub] at e
    rw [List.pairwise_cons] at hsorted
    by_cases ht : i.tick - s.lastCarDetectionTime > 5000
    · rw [if_pos ht] at e
      have hrec := run_noCar_present rest (step s i).1 (by rw [e]) (by rw [e]; exact hi)
        (fun x hx => hall x (by simp [hx]))
      simp only [run, statesOf_cons, hrec, List.map_cons, if_pos ht]
      rw [e]
      congr 1
      apply List.map_congr_left
      intro x hx
      have := hsorted.1 x hx
      rw [if_pos (by omega)]
    · rw [if_neg ht] at e
      have hrec := ih (step s i).1 (by rw [e]) (by rw [e]; exact hlast)
        (fun x hx => hall x (by simp [hx])) (fun x hx => hrx x (by simp [hx]))
        (fun x hx => by rw [e]; exact hrange x (by simp [hx])) hsorted.2
      simp only [run, statesOf_cons, hrec, List.map_cons, if_neg ht]
      rw [e]

theorem step_carDetectedPrevious (s : LoopState) (i : CycleInput) :
    (step s i).1.carDetectedPrevious = i.carSensor := rfl

/-! ## The claims -/

/-- C1 (the code departs from the claim): a step from WAITING_RESPONSE that receives
HAL_OK with bytes 'O','K' writes SERVO_OPEN to the servo, but when
currentTime - lastCarDetectionTime exceeds 5000 the timeout test that follows
overwrites the state: here, with issuedAt 0 and tick 5001, the step ends in NO_CAR
with the servo open, not in OPEN_GATE. -/
theorem C1_grant_overwritten_by_timeout :
    (step ⟨WAITING_RESPONSE, true, 0, SERVO_CLOSED⟩
        ⟨true, 5001, HAL_OK, 'O'.toNat, 'K'.toNat, fun _ => HAL_OK⟩).1.state = NO_CAR ∧
    (step ⟨WAITING_RESPONSE, true, 0, SERVO_CLOSED⟩
        ⟨true, 5001, HAL_OK, 'O'.toNat, 'K'.toNat, fun _ => HAL_OK⟩).1.compare = SERVO_OPEN ∧
    servoCommands (step ⟨WAITING_RESPONSE, true, 0, SERVO_CLOSED⟩
        ⟨true, 5001, HAL_OK, 'O'.toNat, 'K'.toNat, fun _ => HAL_OK⟩).2 = [SERVO_OPEN] := by
  refine ⟨by decide, by decide, by decide⟩

/-- C2: in one step the servo is commanded to SERVO_OPEN if and only if the step starts
in WAITING_RESPONSE, the receive returned HAL_OK and the two bytes are exactly 'O','K';
a step from WAITING_RESPONSE that receives 'N','O' ends in NO_CAR with no actuator
command; and the lower-case or mixed-case bytes 'o','k' and 'O','k', like a failed
receive, never command the servo open. -/
theorem C2_servo_open_iff_ok (s : LoopState) (i : CycleInput) :
    (SetCompare SERVO_OPEN ∈ (step s i).2 ↔
      s.state = WAITING_RESPONSE ∧ i.rxStatus = HAL_OK ∧
        i.rx0 = 'O'.toNat ∧ i.rx1 = 'K'.toNat) ∧
    (s.state = WAITING_RESPONSE → i.rxStatus = HAL_OK → i.rx0 = 'N'.toNat →
      i.rx1 = 'O'.toNat →
        (step s i).1.state = NO_CAR ∧ servoCommands (step s i).2 = []) ∧
    (i.rx0 = 'o'.toNat ∨ i.rx1 = 'k'.toNat ∨ i.rxStatus ≠ HAL_OK →
      SetCompare SERVO_OPEN ∉ (step s i).2) := by
  have key : SetCompare SERVO_OPEN ∈ (step s i).2 ↔
      s.state = WAITING_RESPONSE ∧ i.rxStatus = HAL_OK ∧
        i.rx0 = 'O'.toNat ∧ i.rx1 = 'K'.toNat := by
    rcases hs : s.state with _ | _ | _ | _
    · by_cases h : (i.carSensor && !s.carDetectedPrevious) = true <;>
        simp [step, hs, caseNoCar, h, setCompare_not_mem_retryLoop]
    · simp only [step, hs, caseWaitingResponse, handleResponse, handleTimeout]
      split_ifs <;> simp_all
    · by_cases h : (!i.carSensor && s.carDetectedPrevious) = true <;>
        simp [step, hs, caseOpenGate, h, SERVO_OPEN, SERVO_CLOSED]
    · simp [step, hs, caseCloseGate]
  refine ⟨key, ?_, ?_⟩
  · intro hs hrx h0 h1
    by_cases ht : sub32 i.tick s.lastCarDetectionTime > 5000 <;>
      simp [step, hs, caseWaitingResponse, handleResponse, handleTimeout, hrx, h0, h1, ht,
        servoCommands]
  · intro h hmem
    obtain ⟨_, hrx, h0, h1⟩ := key.mp hmem
    rcases h with h | h | h
    · rw [h0] at h; simp at h
    · rw [h1] at h; simp at h
    · exact h hrx

/-- C2 at a concrete input: a step from WAITING_RESPONSE that receives 'N','O'. -/
theorem C2_servo_open_iff_ok_witness :
    (step ⟨WAITING_RESPONSE, true, 0, SERVO_CLOSED⟩
        ⟨true, 300, HAL_OK, 'N'.toNat, 'O'.toNat, fun _ => HAL_OK⟩).1.state = NO_CAR ∧
    servoCommands (step ⟨WAITING_RESPONSE, true, 0, SERVO_CLOSED⟩
        ⟨true, 300, HAL_OK, 'N'.toNat, 'O'.toNat, fun _ => HAL_OK⟩).2 = [] :=
  (C2_servo_open_iff_ok ⟨WAITING_RESPONSE, true, 0, SERVO_CLOSED⟩
    ⟨true, 300, HAL_OK, 'N'.toNat, 'O'.toNat, fun _ => HAL_OK⟩).2.1 rfl rfl rfl rfl

/-- C3 (the claim as stated fails): with issuedAt 1000 and tick 6000 the elapsed time is
exactly 5000 ms, which is at least 5000, and no message is received; yet the step from
WAITING_RESPONSE stays in WAITING_RESPONSE, since the code tests for more than 5000. -/
theorem C3_no_timeout_at_exactly_5000 :
    sub32 6000 1000 ≥ 5000 ∧
    (step ⟨WAITING_RESPONSE, true, 1000, SERVO_CLOSED⟩
        ⟨true, 6000, HAL_TIMEOUT, 0, 0, fun _ => HAL_OK⟩).1.state = WAITING_RESPONSE ∧
    ¬ (∀ (s : LoopState) (i : CycleInput), s.state = WAITING_RESPONSE →
        ¬ (i.rxStatus = HAL_OK ∧ ((i.rx0 = 'O'.toNat ∧ i.rx1 = 'K'.toNat) ∨
          (i.rx0 = 'N'.toNat ∧ i.rx1 = 'O'.toNat))) →
        sub32 i.tick s.lastCarDetectionTime ≥ 5000 → (step s i).1.state = NO_CAR) := by
  refine ⟨by decide, by decide, ?_⟩
  intro h
  have := h ⟨WAITING_RESPONSE, true, 1000, SERVO_CLOSED⟩
    ⟨true, 6000, HAL_TIMEOUT, 0, 0, fun _ => HAL_OK⟩ rfl (by decide) (by decide)
  revert this
  decide

/-- C3 (amended): a step that starts in WAITING_RESPONSE, receives no message beginning
with 'OK' or 'NO', and has currentTime - lastCarDetectionTime (in 32-bit unsigned
arithmetic) strictly greater than 5000 ends in NO_CAR; the "Timeout" message is written
only by steps that start in WAITING_RESPONSE, so no step that starts in NO_CAR, and in
particular not the step after this one, raises the timeout again. -/
theorem C3_timeout_after_deadline (s : LoopState) (i : CycleInput)
    (hs : s.state = WAITING_RESPONSE)
    (hmsg : ¬ (i.rxStatus = HAL_OK ∧
      ((i.rx0 = 'O'.toNat ∧ i.rx1 = 'K'.toNat) ∨ (i.rx0 = 'N'.toNat ∧ i.rx1 = 'O'.toNat))))
    (ht : sub32 i.tick s.lastCarDetectionTime > 5000) :
    (step s i).1.state = NO_CAR ∧
    (∀ (u : LoopState) (j : CycleInput),
      WriteString "Timeout" ∈ (step u j).2 → u.state = WAITING_RESPONSE) ∧
    (∀ j : CycleInput, WriteString "Timeout" ∉ (step (step s i).1 j).2) := by
  have hfin : (step s i).1.state = NO_CAR := by
    simp only [step, hs, caseWaitingResponse, handleResponse, handleTimeout]
    split_ifs <;> simp_all
  have honly : ∀ (u : LoopState) (j : CycleInput),
      WriteString "Timeout" ∈ (step u j).2 → u.state = WAITING_RESPONSE := by
    intro u j hmem
    rcases hu : u.state with _ | _ | _ | _
    · exfalso
      revert hmem
      by_cases h : (j.carSensor && !u.carDetectedPrevious) = true <;>
        simp [step, hu, caseNoCar, h, timeout_not_mem_retryLoop]
    · rfl
    · exfalso
      revert hmem
      by_cases h : (!j.carSensor && u.carDetectedPrevious) = true <;>
        simp [step, hu, caseOpenGate, h]
    · exfalso
      revert hmem
      simp [step, hu, caseCloseGate]
  refine ⟨hfin, honly, ?_⟩
  intro j hmem
  have := honly _ _ hmem
  rw [hfin] at this
  exact absurd this (by decide)

/-- C3 (amended) at a concrete input: issuedAt 1000, tick 6001, failed receive. -/
theorem C3_timeout_after_deadline_witness :
    (step ⟨WAITING_RESPONSE, true, 1000, SERVO_CLOSED⟩
        ⟨true, 6001, HAL_TIMEOUT, 0, 0, fun _ => HAL_OK⟩).1.state = NO_CAR :=
  (C3_timeout_after_deadline ⟨WAITING_RESPONSE, true, 1000, SERVO_CLOSED⟩
    ⟨true, 6001, HAL_TIMEOUT, 0, 0, fun _ => HAL_OK⟩ rfl (by decide) (by decide)).1

/-- C4: a step makes transmit attempts if and only if it starts in NO_CAR with the
previous reading absent and the current reading present; every attempt sends the request
"CAR_DETECTED\n"; in that case, whatever the transmit attempts return, the step ends in
WAITING_RESPONSE with lastCarDetectionTime equal to the tick sampled in that cycle; a
step from NO_CAR without a rising edge and every step from WAITING_RESPONSE, OPEN_GATE
or CLOSE_GATE send nothing. -/
theorem C4_request_iff_idle_rising_edge (s : LoopState) (i : CycleInput) :
    (transmits (step s i).2 ≠ [] ↔
      s.state = NO_CAR ∧ s.carDetectedPrevious = false ∧ i.carSensor = true) ∧
    (∀ e ∈ transmits (step s i).2, e = ("CAR_DETECTED\n", 13)) ∧
    (s.state = NO_CAR → s.carDetectedPrevious = false → i.carSensor = true →
      (step s i).1.state = WAITING_RESPONSE ∧
        (step s i).1.lastCarDetectionTime = i.tick) ∧
    (s.state ≠ NO_CAR ∨ s.carDetectedPrevious = true ∨ i.carSensor = false →
      transmits (step s i).2 = []) := by
  have hloop := transmits_retryLoop_msg i.tx
  have hne : transmits (retryLoop i.tx 5 0) ≠ [] := by simp [retryLoop, transmits]
  rcases hs : s.state with _ | _ | _ | _
  · by_cases h : (i.carSensor && !s.carDetectedPrevious) = true
    · have h2 := h
      simp only [Bool.and_eq_true, Bool.not_eq_true', ] at h2
      refine ⟨?_, ?_, ?_, ?_⟩
      · simp [step, hs, caseNoCar, h, transmits_append, transmits, hne, h2.1, h2.2]
      · intro e he
        have hfx : (step s i).2 = [Fill, SetCursor 0 0, WriteString "Car Detected",
            SetCursor 0 20, WriteString "Checking...", UpdateScreen] ++
            (retryLoop i.tx 5 0 ++ [Delay 100]) := by
          simp [step, hs, caseNoCar, h]
        have hpre : transmits [Fill, SetCursor 0 0, WriteString "Car Detected",
            SetCursor 0 20, WriteString "Checking...", UpdateScreen] = [] := rfl
        have hpost : transmits [Delay 100] = [] := rfl
        rw [hfx, transmits_append, transmits_append, hpre, hpost, List.nil_append,
          List.append_nil] at he
        exact hloop _ _ _ he
      · intro _ _ _
        simp [step, hs, caseNoCar, h]
      · intro hor
        simp [h2.1, h2.2] at hor
    · have h2 := h
      simp only [Bool.and_eq_true, Bool.not_eq_true', not_and, Bool.not_eq_false] at h2
      refine ⟨?_, ?_, ?_, ?_⟩
      · simp [step, hs, caseNoCar, h, transmits]
        intro hp
        cases hc : i.carSensor
        · rfl
        · simp [h2 hc] at hp
      · intro e he
        simp [step, hs, caseNoCar, h, transmits] at he
      · intro _ hp hc
        simp [h2 hc] at hp
      · intro _
        simp [step, hs, caseNoCar, h, transmits]
  · have hnil : transmits (step s i).2 = [] := by
      simp only [step, hs, caseWaitingResponse, handleResponse, handleTimeout]
      split_ifs <;> simp [transmits]
    simp [hnil]
  · have hnil : transmits (step s i).2 = [] := by
      simp only [step, hs, caseOpenGate]
      split_ifs <;> simp [transmits]
    simp [hnil]
  · have hnil : transmits (step s i).2 = [] := by
      simp [step, hs, caseCloseGate, transmits]
    simp [hnil]

/-- C4 at a concrete input: the first detection, with all transmit attempts failing. -/
theorem C4_request_iff_idle_rising_edge_witness :
    (step initialState ⟨true, 42, HAL_TIMEOUT, 0, 0, fun _ => HAL_ERROR⟩).1.state
        = WAITING_RESPONSE ∧
    (step initialState
        ⟨true, 42, HAL_TIMEOUT, 0, 0, fun _ => HAL_ERROR⟩).1.lastCarDetectionTime = 42 :=
  (C4_request_iff_idle_rising_edge initialState
    ⟨true, 42, HAL_TIMEOUT, 0, 0, fun _ => HAL_ERROR⟩).2.2.1 rfl rfl rfl

/-- C5: for a step that starts in OPEN_GATE, whatever is received and whatever the tick:
when the previous reading is present and the current one absent the step ends in
CLOSE_GATE and its calls are exactly the "Closing" display update, HAL_Delay(1000), one
write of SERVO_CLOSED to the servo and the end-of-cycle delay, in that order; in the
three other combinations of readings the state stays OPEN_GATE and the servo is not
written. -/
theorem C5_open_gate_closes_on_falling_edge (s : LoopState) (i : CycleInput)
    (hs : s.state = OPEN_GATE) :
    (s.carDetectedPrevious = true ∧ i.carSensor = false →
      (step s i).1.state = CLOSE_GATE ∧ (step s i).1.compare = SERVO_CLOSED ∧
      servoCommands (step s i).2 = [SERVO_CLOSED] ∧
      (step s i).2 = [Fill, SetCursor 10 20, WriteString "Closing", UpdateScreen,
        Delay 1000, SetCompare SERVO_CLOSED, Delay 100]) ∧
    (¬ (s.carDetectedPrevious = true ∧ i.carSensor = false) →
      (step s i).1.state = OPEN_GATE ∧ (step s i).1.compare = s.compare ∧
      servoCommands (step s i).2 = []) := by
  constructor
  · rintro ⟨hp, hc⟩
    simp [step, hs, caseOpenGate, hp, hc, servoCommands]
  · intro h
    have h2 : ¬ ((!i.carSensor && s.carDetectedPrevious) = true) := by
      simp only [Bool.and_eq_true, Bool.not_eq_true', not_and]
      intro hc hp
      exact h ⟨hp, hc⟩
    simp [step, hs, caseOpenGate, h2, servoCommands]

/-- C5 at a concrete input: the car leaves while the gate is open. -/
theorem C5_open_gate_closes_on_falling_edge_witness :
    (step ⟨OPEN_GATE, true, 7, SERVO_OPEN⟩
        ⟨false, 900, HAL_OK, 'N'.toNat, 'O'.toNat, fun _ => HAL_OK⟩).1.state = CLOSE_GATE ∧
    servoCommands (step ⟨OPEN_GATE, true, 7, SERVO_OPEN⟩
        ⟨false, 900, HAL_OK, 'N'.toNat, 'O'.toNat, fun _ => HAL_OK⟩).2 = [SERVO_CLOSED] :=
  ⟨((C5_open_gate_closes_on_falling_edge ⟨OPEN_GATE, true, 7, SERVO_OPEN⟩
      ⟨false, 900, HAL_OK, 'N'.toNat, 'O'.toNat, fun _ => HAL_OK⟩ rfl).1 ⟨rfl, rfl⟩).1,
   ((C5_open_gate_closes_on_falling_edge ⟨OPEN_GATE, true, 7, SERVO_OPEN⟩
      ⟨false, 900, HAL_OK, 'N'.toNat, 'O'.toNat, fun _ => HAL_OK⟩ rfl).1 ⟨rfl, rfl⟩).2.2.1⟩

/-- C6: in the request send of a step from NO_CAR with a rising edge, the calls made are
the display update, then the retry loop, then the end-of-cycle delay. When the first
successful transmit is the k-th with k at most 5, the loop makes exactly k attempts, the
first k - 1 each followed by HAL_Delay(20) and the k-th by nothing; when the first five
all fail it makes exactly 5 attempts, each followed by HAL_Delay(20). Every attempt sends
the 13-byte message "CAR_DETECTED\n", and the number of 20 ms delays equals the number
of failed attempts. -/
theorem C6_retry_policy (s : LoopState) (i : CycleInput)
    (hs : s.state = NO_CAR) (hp : s.carDetectedPrevious = false) (hc : i.carSensor = true) :
    (step s i).2 = [Fill, SetCursor 0 0, WriteString "Car Detected", SetCursor 0 20,
        WriteString "Checking...", UpdateScreen] ++ retryLoop i.tx 5 0 ++ [Delay 100] ∧
    (∀ k, 1 ≤ k → k ≤ 5 → i.tx (k - 1) = HAL_OK → (∀ j, j < k - 1 → i.tx j ≠ HAL_OK) →
      retryLoop i.tx 5 0 =
        (List.replicate (k - 1) [Transmit "CAR_DETECTED\n" 13 100, Delay 20]).flatten ++
          [Transmit "CAR_DETECTED\n" 13 100] ∧
      (transmits (retryLoop i.tx 5 0)).length = k ∧
      (retryLoop i.tx 5 0).count (Delay 20) = k - 1) ∧
    ((∀ j, j < 5 → i.tx j ≠ HAL_OK) →
      retryLoop i.tx 5 0 =
        (List.replicate 5 [Transmit "CAR_DETECTED\n" 13 100, Delay 20]).flatten ∧
      (transmits (retryLoop i.tx 5 0)).length = 5 ∧
      (retryLoop i.tx 5 0).count (Delay 20) = 5) ∧
    (∀ e ∈ transmits (retryLoop i.tx 5 0), e = ("CAR_DETECTED\n", 13)) ∧
    "CAR_DETECTED\n".length = 13 := by
  refine ⟨?_, ?_, ?_, ?_, rfl⟩
  · simp [step, hs, caseNoCar, hp, hc]
  · intro k hk1 hk5 hok hfail
    have hpre := retryLoop_failed_prefix i.tx (k - 1) 5 0 (by omega)
      (by intro j hj; simpa using hfail j hj)
    obtain ⟨m, hm⟩ : ∃ m, 5 - (k - 1) = m + 1 := ⟨5 - k, by omega⟩
    have hlast : retryLoop i.tx (5 - (k - 1)) (0 + (k - 1)) =
        [Transmit "CAR_DETECTED\n" 13 100] := by
      rw [hm]
      have hlen : carDetectMsg.length = 13 := rfl
      have hidx : 0 + (k - 1) = k - 1 := by omega
      simp only [retryLoop, hidx, hok, if_true]
      rfl
    rw [hlast] at hpre
    refine ⟨hpre, ?_, ?_⟩
    · rw [hpre, transmits_append, List.length_append, transmits_failed_attempts]
      simp only [transmits, List.length_singleton]
      omega
    · rw [hpre, List.count_append, backoffs_failed_attempts]
      simp
  · intro hfail
    have hpre := retryLoop_failed_prefix i.tx 5 5 0 (by omega)
      (by intro j hj; simpa using hfail j hj)
    have hnil : retryLoop i.tx (5 - 5) (0 + 5) = [] := rfl
    rw [hnil, List.append_nil] at hpre
    refine ⟨hpre, ?_, ?_⟩
    · rw [hpre, transmits_failed_attempts]
    · rw [hpre, backoffs_failed_attempts]
  · exact transmits_retryLoop_msg i.tx 5 0

/-- C6 at a concrete input: two failed attempts, then a successful one. -/
theorem C6_retry_policy_witness :
    (transmits (retryLoop (fun n => if n < 2 then HAL_ERROR else HAL_OK) 5 0)).length = 3 ∧
    (retryLoop (fun n => if n < 2 then HAL_ERROR else HAL_OK) 5 0).count (Delay 20) = 2 :=
  ((C6_retry_policy initialState
    ⟨true, 42, HAL_TIMEOUT, 0, 0, fun n => if n < 2 then HAL_ERROR else HAL_OK⟩
    rfl rfl rfl).2.1 3 (by decide) (by decide) (by decide)
    (by intro j hj; interval_cases j <;> decide)).2

/-- C9 (the claim as stated fails): a step from WAITING_RESPONSE that receives 'O','K'
before the deadline calls ssd1306_UpdateScreen twice, once after echoing the received
text and once after writing "Access Granted". -/
theorem C9_two_display_updates :
    displayUpdates (step ⟨WAITING_RESPONSE, true, 0, SERVO_CLOSED⟩
      ⟨true, 300, HAL_OK, 'O'.toNat, 'K'.toNat, fun _ => HAL_OK⟩).2 = 2 ∧
    ¬ (∀ (s : LoopState) (i : CycleInput),
        (servoCommands (step s i).2).length ≤ 1 ∧ displayUpdates (step s i).2 ≤ 1) := by
  refine ⟨by decide, ?_⟩
  intro h
  have := (h ⟨WAITING_RESPONSE, true, 0, SERVO_CLOSED⟩
    ⟨true, 300, HAL_OK, 'O'.toNat, 'K'.toNat, fun _ => HAL_OK⟩).2
  revert this
  decide

/-- C9 (amended): every step writes the servo compare value at most once; every step
that does not start in WAITING_RESPONSE with a successful receive calls
ssd1306_UpdateScreen at most once; and a step from WAITING_RESPONSE with a successful
receive, where the echo of the received text is one more update, calls it at most
twice as long as the deadline has not passed or the bytes are neither 'O','K' nor
'N','O'. -/
theorem C9_commands_per_step (s : LoopState) (i : CycleInput) :
    (servoCommands (step s i).2).length ≤ 1 ∧
    (¬ (s.state = WAITING_RESPONSE ∧ i.rxStatus = HAL_OK) →
      displayUpdates (step s i).2 ≤ 1) ∧
    (sub32 i.tick s.lastCarDetectionTime ≤ 5000 ∨
      ¬ ((i.rx0 = 'O'.toNat ∧ i.rx1 = 'K'.toNat) ∨ (i.rx0 = 'N'.toNat ∧ i.rx1 = 'O'.toNat)) →
      displayUpdates (step s i).2 ≤ 2) := by
  rcases hs : s.state with _ | _ | _ | _
  · have hd := displayUpdates_retryLoop i.tx 5 0
    unfold displayUpdates at hd
    by_cases h : s.carDetectedPrevious = true ∨ i.carSensor = false
    · rw [step_noCar_quiet s i hs h]
      simp [servoCommands, displayUpdates]
    · have hp : s.carDetectedPrevious = false := by
        cases hq : s.carDetectedPrevious <;> simp_all
      have hc : i.carSensor = true := by
        cases hq : i.carSensor <;> simp_all
      rw [step_noCar_rising s i hs hp hc]
      have hpre : servoCommands [Fill, SetCursor 0 0, WriteString "Car Detected",
          SetCursor 0 20, WriteString "Checking...", UpdateScreen] = [] := rfl
      have hpost : servoCommands [Delay 100] = [] := rfl
      simp only [servoCommands_append, servoCommands_retryLoop, hpre, hpost, displayUpdates,
        List.count_append, hd]
      simp
  · refine ⟨?_, ?_, ?_⟩
    · simp only [step, hs, caseWaitingResponse, handleResponse, handleTimeout]
      split_ifs <;> simp [servoCommands]
    · intro h
      have hrx : ¬ i.rxStatus = HAL_OK := by simpa using h
      simp only [step, hs, caseWaitingResponse, handleResponse, handleTimeout,
        displayUpdates]
      split_ifs <;> simp_all
    · intro h
      simp only [step, hs, caseWaitingResponse, handleResponse, handleTimeout,
        displayUpdates]
      split_ifs <;> simp_all <;> omega
  · by_cases h : (!i.carSensor && s.carDetectedPrevious) = true <;>
      simp [step, hs, caseOpenGate, h, servoCommands, displayUpdates]
  · simp [step, hs, caseCloseGate, servoCommands, displayUpdates]

/-- C9 (amended) at a concrete input: a step from WAITING_RESPONSE with a failed receive. -/
theorem C9_commands_per_step_witness :
    displayUpdates (step ⟨WAITING_RESPONSE, true, 0, SERVO_CLOSED⟩
      ⟨true, 300, HAL_TIMEOUT, 0, 0, fun _ => HAL_OK⟩).2 ≤ 1 :=
  (C9_commands_per_step ⟨WAITING_RESPONSE, true, 0, SERVO_CLOSED⟩
    ⟨true, 300, HAL_TIMEOUT, 0, 0, fun _ => HAL_OK⟩).2.1 (by decide)

/-- C10: the timeout test is evaluated modulo 2^32: a step from WAITING_RESPONSE takes
the timeout branch (writes "Timeout" and ends in NO_CAR) if and only if
(currentTime - lastCarDetectionTime) mod 2^32 exceeds 5000; hence when currentTime is
(lastCarDetectionTime + e) mod 2^32 for a true elapsed time e below 2^32, the timeout
fires if and only if e exceeds 5000, also when the tick counter has wrapped. This holds
for all tick values, in particular for those below 2^32. -/
theorem C10_timeout_modulo_2_32 (s : LoopState) (i : CycleInput)
    (hs : s.state = WAITING_RESPONSE) :
    (WriteString "Timeout" ∈ (step s i).2 ↔
      ((i.tick : Int) - (s.lastCarDetectionTime : Int)) % 2 ^ 32 > 5000) ∧
    (((i.tick : Int) - (s.lastCarDetectionTime : Int)) % 2 ^ 32 > 5000 →
      (step s i).1.state = NO_CAR) ∧
    (∀ e : Nat, e < 2 ^ 32 → i.tick = (s.lastCarDetectionTime + e) % 2 ^ 32 →
      (WriteString "Timeout" ∈ (step s i).2 ↔ e > 5000)) := by
  have hsub := sub32_eq_emod i.tick s.lastCarDetectionTime
  have hiff := timeout_written_iff s i hs
  have hpow : (2 : Int) ^ 32 = 4294967296 := by norm_num
  have hpowN : (2 : Nat) ^ 32 = 4294967296 := by norm_num
  rw [hpow]
  refine ⟨?_, ?_, ?_⟩
  · rw [hiff]; omega
  · intro h
    have ht : sub32 i.tick s.lastCarDetectionTime > 5000 := by omega
    simp only [step, hs, caseWaitingResponse, handleResponse, handleTimeout]
    split_ifs <;> simp_all
  · intro e he htk
    rw [hpowN] at he htk
    rw [hiff]
    unfold sub32 at hsub ⊢
    omega

/-- C10 at a concrete input: the tick counter wraps between the request and the check. -/
theorem C10_timeout_modulo_2_32_witness :
    (WriteString "Timeout" ∈ (step ⟨WAITING_RESPONSE, true, 4294967000, SERVO_CLOSED⟩
      ⟨true, 4705, HAL_TIMEOUT, 0, 0, fun _ => HAL_OK⟩).2 ↔ 5001 > 5000) :=
  (C10_timeout_modulo_2_32 ⟨WAITING_RESPONSE, true, 4294967000, SERVO_CLOSED⟩
    ⟨true, 4705, HAL_TIMEOUT, 0, 0, fun _ => HAL_OK⟩ rfl).2.2
    5001 (by decide) (by decide)

/-- C7: from the initial state, for every N at least 1 and whatever the transmit attempts
return, the run with readings absent, present, then present for N cycles of which the
first receives 'O','K' within the deadline, then absent, then one more cycle, passes
through NO_CAR, WAITING_RESPONSE, OPEN_GATE (for the N present cycles), CLOSE_GATE and
NO_CAR in that order, and the values written to the servo over the whole run are exactly
SERVO_OPEN followed by SERVO_CLOSED. -/
theorem C7_grant_scenario (N : Nat) (i1 i2 i3 i4 i5 : CycleInput) (mid : List CycleInput)
    (hN : (i3 :: mid).length = N)
    (h1 : i1.carSensor = false) (h2 : i2.carSensor = true) (h3 : i3.carSensor = true)
    (hrx : i3.rxStatus = HAL_OK) (hO : i3.rx0 = 'O'.toNat) (hK : i3.rx1 = 'K'.toNat)
    (hdl : sub32 i3.tick i2.tick ≤ 5000)
    (hmid : ∀ m ∈ mid, m.carSensor = true) (h4 : i4.carSensor = false) :
    1 ≤ N ∧
    initialState.state = NO_CAR ∧
    statesOf (run initialState ([i1, i2, i3] ++ mid ++ [i4, i5])) =
      [NO_CAR, WAITING_RESPONSE] ++ List.replicate N OPEN_GATE ++ [CLOSE_GATE, NO_CAR] ∧
    servoCommands (effectsOf (run initialState ([i1, i2, i3] ++ mid ++ [i4, i5]))) =
      [SERVO_OPEN, SERVO_CLOSED] := by
  have e1 := step_noCar_quiet initialState i1 rfl (Or.inr h1)
  have e2 := step_noCar_rising (step initialState i1).1 i2 (by rw [e1])
    (by rw [e1]; exact h1) h2
  have e3 := step_waiting_ok_in_time (step (step initialState i1).1 i2).1 i3 (by rw [e2])
    hrx hO hK (by rw [e2]; exact hdl)
  have e4 := run_open_then_close mid i4 i5 (step (step (step initialState i1).1 i2).1 i3).1
    e3.1 (by rw [step_carDetectedPrevious]; exact h3) hmid h4
  have hrun : run initialState ([i1, i2, i3] ++ mid ++ [i4, i5]) =
      step initialState i1 :: step (step initialState i1).1 i2 ::
        step (step (step initialState i1).1 i2).1 i3 ::
          run (step (step (step initialState i1).1 i2).1 i3).1 (mid ++ [i4, i5]) := by
    simp [run]
  have hs1 : servoCommands (step initialState i1).2 = [] := by
    rw [e1]; rfl
  have hs2 : servoCommands (step (step initialState i1).1 i2).2 = [] := by
    have hpre : servoCommands [Fill, SetCursor 0 0, WriteString "Car Detected",
        SetCursor 0 20, WriteString "Checking...", UpdateScreen] = [] := rfl
    have hpost : servoCommands [Delay 100] = [] := rfl
    rw [e2]
    simp only [servoCommands_append, servoCommands_retryLoop, hpre, hpost]
    rfl
  refine ⟨by rw [← hN]; simp, rfl, ?_, ?_⟩
  · rw [hrun, statesOf_cons, statesOf_cons, statesOf_cons, e4.1, e3.1, ← hN]
    rw [e2, e1]
    simp [List.replicate_succ]
  · rw [hrun, effectsOf_cons, effectsOf_cons, effectsOf_cons, servoCommands_append,
      servoCommands_append, servoCommands_append, e4.2, e3.2.2, hs1, hs2]
    rfl

/-- C7 at a concrete run with N = 2 and all transmit attempts failing. -/
theorem C7_grant_scenario_witness :
    statesOf (run initialState
      ([⟨false, 0, HAL_TIMEOUT, 0, 0, fun _ => HAL_ERROR⟩,
        ⟨true, 200, HAL_TIMEOUT, 0, 0, fun _ => HAL_ERROR⟩,
        ⟨true, 400, HAL_OK, 'O'.toNat, 'K'.toNat, fun _ => HAL_ERROR⟩] ++
        [⟨true, 600, HAL_TIMEOUT, 0, 0, fun _ => HAL_ERROR⟩] ++
        [⟨false, 800, HAL_TIMEOUT, 0, 0, fun _ => HAL_ERROR⟩,
          ⟨false, 2000, HAL_TIMEOUT, 0, 0, fun _ => HAL_ERROR⟩])) =
      [NO_CAR, WAITING_RESPONSE, OPEN_GATE, OPEN_GATE, CLOSE_GATE, NO_CAR] ∧
    servoCommands (effectsOf (run initialState
      ([⟨false, 0, HAL_TIMEOUT, 0, 0, fun _ => HAL_ERROR⟩,
        ⟨true, 200, HAL_TIMEOUT, 0, 0, fun _ => HAL_ERROR⟩,
        ⟨true, 400, HAL_OK, 'O'.toNat, 'K'.toNat, fun _ => HAL_ERROR⟩] ++
        [⟨true, 600, HAL_TIMEOUT, 0, 0, fun _ => HAL_ERROR⟩] ++
        [⟨false, 800, HAL_TIMEOUT, 0, 0, fun _ => HAL_ERROR⟩,
          ⟨false, 2000, HAL_TIMEOUT, 0, 0, fun _ => HAL_ERROR⟩]))) =
      [SERVO_OPEN, SERVO_CLOSED] :=
  (C7_grant_scenario 2
    ⟨false, 0, HAL_TIMEOUT, 0, 0, fun _ => HAL_ERROR⟩
    ⟨true, 200, HAL_TIMEOUT, 0, 0, fun _ => HAL_ERROR⟩
    ⟨true, 400, HAL_OK, 'O'.toNat, 'K'.toNat, fun _ => HAL_ERROR⟩
    ⟨false, 800, HAL_TIMEOUT, 0, 0, fun _ => HAL_ERROR⟩
    ⟨false, 2000, HAL_TIMEOUT, 0, 0, fun _ => HAL_ERROR⟩
    [⟨true, 600, HAL_TIMEOUT, 0, 0, fun _ => HAL_ERROR⟩]
    rfl rfl rfl rfl rfl rfl rfl (by decide)
    (by intro m hm; simp at hm; rw [hm]) rfl).2.2

/-- C8: in every run from the initial state in which no receive succeeds, every cycle
ends in NO_CAR or WAITING_RESPONSE and writes nothing to the servo; and when the
readings are absent, then present and staying present, with non-decreasing ticks below
2^32, the states after the cycles are NO_CAR, then WAITING_RESPONSE at the detection and
at every later cycle whose tick is at most 5000 past the detection tick, then NO_CAR
from the first cycle whose tick is more than 5000 past it. -/
theorem C8_no_response_scenario (inputs : List CycleInput)
    (hrx : ∀ i ∈ inputs, i.rxStatus ≠ HAL_OK) :
    (∀ p ∈ run initialState inputs,
      (p.1.state = NO_CAR ∨ p.1.state = WAITING_RESPONSE) ∧ servoCommands p.2 = []) ∧
    (∀ (i1 i2 : CycleInput) (rest : List CycleInput), inputs = i1 :: i2 :: rest →
      i1.carSensor = false → (∀ i ∈ i2 :: rest, i.carSensor = true) →
      (∀ i ∈ inputs, i.tick < 2 ^ 32) →
      List.Pairwise (fun a b : CycleInput => a.tick ≤ b.tick) inputs →
      statesOf (run initialState inputs) =
        NO_CAR :: WAITING_RESPONSE :: rest.map (fun i =>
          if i.tick - i2.tick > 5000 then NO_CAR else WAITING_RESPONSE)) := by
  refine ⟨run_no_rx_invariant inputs initialState (Or.inl rfl) hrx, ?_⟩
  intro i1 i2 rest hin h1 hpres hrange hsorted
  subst hin
  have hpowN : (2 : Nat) ^ 32 = 4294967296 := by norm_num
  rw [hpowN] at hrange
  have e1 := step_noCar_quiet initialState i1 rfl (Or.inr h1)
  have e2 := step_noCar_rising (step initialState i1).1 i2 (by rw [e1])
    (by rw [e1]; exact h1) (hpres i2 (by simp))
  rw [List.pairwise_cons, List.pairwise_cons] at hsorted
  have hlast : (step (step initialState i1).1 i2).1.lastCarDetectionTime = i2.tick := by
    rw [e2]
  have e3 := run_waiting_until_deadline rest (step (step initialState i1).1 i2).1
    (by rw [e2]) (by rw [hlast]; exact hrange i2 (by simp))
    (fun x hx => hpres x (by simp [hx])) (fun x hx => hrx x (by simp [hx]))
    (fun x hx => by
      rw [hlast]
      exact ⟨hsorted.2.1 x hx, hrange x (by simp [hx])⟩)
    hsorted.2.2
  rw [hlast] at e3
  have hrun : run initialState (i1 :: i2 :: rest) =
      step initialState i1 :: step (step initialState i1).1 i2 ::
        run (step (step initialState i1).1 i2).1 rest := rfl
  rw [hrun, statesOf_cons, statesOf_cons, e3, e2, e1]

/-- C8 at a concrete run: the deadline passes between ticks 5100 and 5101. -/
theorem C8_no_response_scenario_witness :
    statesOf (run initialState
      [⟨false, 0, HAL_TIMEOUT, 0, 0, fun _ => HAL_ERROR⟩,
        ⟨true, 100, HAL_TIMEOUT, 0, 0, fun _ => HAL_ERROR⟩,
        ⟨true, 2600, HAL_TIMEOUT, 0, 0, fun _ => HAL_ERROR⟩,
        ⟨true, 5100, HAL_TIMEOUT, 0, 0, fun _ => HAL_ERROR⟩,
        ⟨true, 5101, HAL_TIMEOUT, 0, 0, fun _ => HAL_ERROR⟩,
        ⟨true, 9000, HAL_TIMEOUT, 0, 0, fun _ => HAL_ERROR⟩]) =
      [NO_CAR, WAITING_RESPONSE, WAITING_RESPONSE, WAITING_RESPONSE, NO_CAR, NO_CAR] :=
  (C8_no_response_scenario
    [⟨false, 0, HAL_TIMEOUT, 0, 0, fun _ => HAL_ERROR⟩,
      ⟨true, 100, HAL_TIMEOUT, 0, 0, fun _ => HAL_ERROR⟩,
      ⟨true, 2600, HAL_TIMEOUT, 0, 0, fun _ => HAL_ERROR⟩,
      ⟨true, 5100, HAL_TIMEOUT, 0, 0, fun _ => HAL_ERROR⟩,
      ⟨true, 5101, HAL_TIMEOUT, 0, 0, fun _ => HAL_ERROR⟩,
      ⟨true, 9000, HAL_TIMEOUT, 0, 0, fun _ => HAL_ERROR⟩]
    (by intro i hi; simp at hi; rcases hi with rfl | rfl | rfl | rfl | rfl | rfl <;> decide)).2
    _ _ _ rfl rfl
    (by intro i hi; simp at hi; rcases hi with rfl | rfl | rfl | rfl | rfl <;> rfl)
    (by intro i hi; simp at hi; rcases hi with rfl | rfl | rfl | rfl | rfl | rfl <;> decide)
    (by simp)

end CarPark
